import Mathlib

/-!
Verification of `scripts/column.py`: a script that integrates the scalar ODE
dCg/dz = -alpha / V0 * X / Y * mu * Cg / m / (K + Cg / m) * delta
over a 100-point grid from z = 0 to z = 5 and plots the normalized solution.

The Python floats are embedded as exact rationals (ℚ); every hard-coded
constant of the script is an exactly representable decimal, so the algebraic
identities below are the identities of the source expressions.
-/

namespace Column

/-- Parameter `alpha = 0.9` from the script. -/
def alpha : ℚ := 9 / 10

/-- Parameter `V0 = 2` from the script. -/
def V0 : ℚ := 2

/-- Parameter `X = 2` from the script. -/
def X : ℚ := 2

/-- Parameter `Y = 5` from the script. -/
def Y : ℚ := 5

/-- Parameter `mu = 5` from the script. -/
def mu : ℚ := 5

/-- Parameter `K = 1` from the script. -/
def K : ℚ := 1

/-- Parameter `m = 1` from the script. -/
def m : ℚ := 1

/-- Parameter `delta = 0.001` from the script. -/
def delta : ℚ := 1 / 1000

/-- The rate function `dCgdz(Cg, z)` of the script, with the Python chain
`-alpha / V0 * X / Y * mu * Cg / m / (K + Cg / m) * delta` transcribed with
its left-to-right grouping (unary minus binds tighter than `*` and `/`). -/
def dCgdz (Cg z : ℚ) : ℚ :=
  -alpha / V0 * X / Y * mu * Cg / m / (K + Cg / m) * delta

/-- Initial condition `Cg0 = 0.000195` from the script. -/
def Cg0 : ℚ := 195 / 1000000

/-- The value of `np.linspace(0, 5, 100)` at index `i`:
start + i * (stop - start) / (num - 1). -/
def zgrid (i : ℕ) : ℚ := 0 + (i : ℚ) * (5 - 0) / 99

/-- The integration grid `z = np.linspace(0, 5, 100)` as a list. -/
def zlist : List ℚ := (List.range 100).map zgrid

lemma zlist_length : zlist.length = 100 := by
  simp [zlist]

lemma zlist_getD (i : ℕ) (h : i < 100) : zlist.getD i 0 = zgrid i := by
  unfold zlist
  rw [List.getD_eq_get?, List.get?_map, List.get?_range h]
  rfl

lemma zgrid_step (i : ℕ) : zgrid (i + 1) - zgrid i = 5 / 99 := by
  unfold zgrid
  push_cast
  ring

/-- Helper: the rate function is literally the closed form
−(9/10000)·Cg/(1+Cg) after plugging in the constants. -/
lemma dCgdz_closed_form (Cg z : ℚ) :
    dCgdz Cg z = -(9 / 10000) * Cg / (1 + Cg) := by
  unfold dCgdz alpha V0 X Y mu K m delta
  ring

lemma dCgdz_zero (z : ℚ) : dCgdz 0 z = 0 := by
  rw [dCgdz_closed_form]
  ring

lemma dCgdz_nonpos (Cg z : ℚ) (h : 0 ≤ Cg) : dCgdz Cg z ≤ 0 := by
  rw [dCgdz_closed_form]
  have hd : (0 : ℚ) < 1 + Cg := by linarith
  have hq : 0 ≤ Cg / (1 + Cg) := div_nonneg h (le_of_lt hd)
  have : -(9 / 10000) * Cg / (1 + Cg) = -(9 / 10000 * (Cg / (1 + Cg))) := by ring
  rw [this]
  nlinarith

/-- Modelled from the spec: `scipy.integrate.odeint` is library code, not part
of this repository; per the spec (§4.2) it takes the rate function, the
initial condition `Cg0` and the 100-point grid, and produces one solution
value per grid point, the first equal to the initial condition, each later
value obtained from the previous one by advancing over one grid interval with
the rate function evaluated at some intermediate nonnegative concentration
(mean-value form of a consistent one-step method). -/
def OdeintOutput (ys : List ℚ) : Prop :=
  ys.length = zlist.length ∧ ys.head? = some Cg0 ∧
    ∀ i, i + 1 < ys.length → ∃ c, 0 ≤ c ∧
      ys.getD (i + 1) 0 = ys.getD i 0 + (zgrid (i + 1) - zgrid i) * dCgdz c (zgrid i)

/-- The constant sequence at the initial condition satisfies the modelled
solver contract (taking the intermediate concentration to be 0 at each step,
where the rate vanishes). -/
lemma constList_odeint : OdeintOutput (List.replicate 100 Cg0) := by
  refine ⟨by simp [zlist_length], by simp, ?_⟩
  intro i hi
  refine ⟨0, le_refl 0, ?_⟩
  rw [List.length_replicate] at hi
  rw [List.getD_eq_getElem?_getD, List.getElem?_replicate,
    List.getD_eq_getElem?_getD, List.getElem?_replicate, dCgdz_zero]
  simp [hi, Nat.lt_of_succ_lt hi]

/-- Guarded division: `none` exactly when the divisor is zero, so the monadic
rate function below records every division the Python expression performs. -/
def divE (a b : ℚ) : Option ℚ :=
  if b = 0 then none else some (a / b)

/-- The rate function with every division of the Python chain
`-alpha / V0 * X / Y * mu * Cg / m / (K + Cg / m) * delta` guarded, in the
order Python evaluates them (the divisor `K + Cg / m` itself contains the
division `Cg / m`). -/
def dCgdzE (Cg z : ℚ) : Option ℚ := do
  let t1 ← divE (-alpha) V0
  let t2 ← divE (t1 * X) Y
  let t3 ← divE (t2 * mu * Cg) m
  let s ← divE Cg m
  let t4 ← divE t3 (K + s)
  pure (t4 * delta)

/-- The data handed to matplotlib, modelled as a record. Modelled from the
spec: matplotlib rendering is library code, not part of this repository; per
the spec (§4.3, §6) the script displays interactively and writes no file, so
the effect is recorded in the `writesFile` flag. The data and label fields
transcribe the calls `plt.plot(z, y / Cg0)`, `plt.xlabel(...)`,
`plt.ylabel(...)` of the script. -/
structure PlotSpec where
  xdata : List ℚ
  ydata : List ℚ
  xlabel : String
  ylabel : String
  writesFile : Bool

/-- The plot the script builds from a solver output `ys`: grid on the
horizontal axis, elementwise `ys / Cg0` on the vertical axis, the script's
literal label strings, and no file output. -/
def columnPlot (ys : List ℚ) : PlotSpec :=
  { xdata := zlist
    ydata := ys.map (fun c => c / Cg0)
    xlabel := "z [m]"
    ylabel := "Cg [g/L]"
    writesFile := false }

/-- Modelled from the spec: the script is one linear pipeline
(grid → integrate → plot) with no exception handling, so a solver failure
propagates and no plot is produced. The solver step is library code; its
outcome is passed in as an `Except`: `Except.error` for a reported numerical
error, `Except.ok` for a solution sequence. -/
def runScript (solverResult : Except String (List ℚ)) : Except String PlotSpec := do
  let ys ← solverResult
  pure (columnPlot ys)

/-- C1: the Python chain `-alpha / V0 * X / Y * mu * Cg / m / (K + Cg / m) * delta`,
grouped left to right as Python evaluates it, equals the spec expression
−(alpha/V0)·(X/Y)·mu·(Cg/m)/(K + Cg/m)·delta for every `Cg` and `z`. -/
theorem C1_rate_chain_matches_spec (Cg z : ℚ) :
    dCgdz Cg z = -(alpha / V0) * (X / Y) * mu * (Cg / m) / (K + Cg / m) * delta := by
  unfold dCgdz
  ring

/-- C2: the rate function vanishes at zero concentration, for every `z`. -/
theorem C2_rate_zero_at_zero_concentration (z : ℚ) : dCgdz 0 z = 0 :=
  dCgdz_zero z

/-- C3: the rate function is ≤ 0 for every nonnegative concentration and every
`z`, and consequently every solution sequence satisfying the modelled solver
contract is monotonically non-increasing across consecutive grid points. -/
theorem C3_rate_nonpos_and_solution_nonincreasing :
    (∀ Cg z, 0 ≤ Cg → dCgdz Cg z ≤ 0) ∧
      ∀ ys, OdeintOutput ys → ∀ i, i + 1 < ys.length →
        ys.getD (i + 1) 0 ≤ ys.getD i 0 := by
  refine ⟨fun Cg z h => dCgdz_nonpos Cg z h, ?_⟩
  rintro ys ⟨-, -, hstep⟩ i hi
  obtain ⟨c, hc, heq⟩ := hstep i hi
  rw [heq, zgrid_step]
  have hrate := dCgdz_nonpos c (zgrid i) hc
  nlinarith

/-- Witness for C3 at concrete inputs: concentration 1 at position 0, and the
constant solver output at grid step 0. -/
theorem C3_witness :
    dCgdz 1 0 ≤ 0 ∧
      (List.replicate 100 Cg0).getD (0 + 1) 0 ≤ (List.replicate 100 Cg0).getD 0 0 :=
  ⟨C3_rate_nonpos_and_solution_nonincreasing.1 1 0 (by norm_num),
   C3_rate_nonpos_and_solution_nonincreasing.2 _ constList_odeint 0 (by simp)⟩

/-- C4: the grid has exactly 100 values, its first element is 0, its last
element (index 99) is 5, and consecutive elements differ by the constant
spacing 5/99, hence the grid is strictly increasing. -/
theorem C4_grid_shape :
    zlist.length = 100 ∧ zlist.head? = some 0 ∧ zlist.getD 99 0 = 5 ∧
      ∀ i, i + 1 < 100 →
        zlist.getD (i + 1) 0 - zlist.getD i 0 = 5 / 99 ∧
          zlist.getD i 0 < zlist.getD (i + 1) 0 := by
  refine ⟨zlist_length, ?_, ?_, ?_⟩
  · rw [zlist, List.head?_eq_getElem?, List.getElem?_map,
      List.getElem?_range (by norm_num : 0 < 100)]
    norm_num [zgrid]
  · rw [zlist_getD 99 (by norm_num)]
    norm_num [zgrid]
  · intro i hi
    rw [zlist_getD (i + 1) hi, zlist_getD i (by omega), zgrid_step]
    constructor
    · rfl
    · have := zgrid_step i
      linarith [zgrid_step i]

/-- Witness for C4 at the concrete grid interval from index 0 to index 1. -/
theorem C4_witness :
    zlist.getD (0 + 1) 0 - zlist.getD 0 0 = 5 / 99 ∧
      zlist.getD 0 0 < zlist.getD (0 + 1) 0 :=
  C4_grid_shape.2.2.2 0 (by norm_num)

/-- C5: every solution sequence satisfying the modelled solver contract has
100 entries (the grid length), starts at the initial condition `Cg0`, and its
normalization by `Cg0` starts at exactly 1. -/
theorem C5_solution_invariants (ys : List ℚ) (h : OdeintOutput ys) :
    ys.length = 100 ∧ ys.head? = some Cg0 ∧
      (ys.map (fun c => c / Cg0)).head? = some 1 := by
  obtain ⟨hlen, hhead, -⟩ := h
  refine ⟨by rw [hlen, zlist_length], hhead, ?_⟩
  rw [List.head?_map, hhead]
  norm_num [Cg0]

/-- Witness for C5 at the constant solver output. -/
theorem C5_witness :
    (List.replicate 100 Cg0).length = 100 ∧
      (List.replicate 100 Cg0).head? = some Cg0 ∧
      ((List.replicate 100 Cg0).map (fun c => c / Cg0)).head? = some 1 :=
  C5_solution_invariants _ constList_odeint

/-- C6: the rate function is deterministic and independent of its second
argument: its value at a concentration is the same at any two positions. -/
theorem C6_rate_independent_of_position (Cg z1 z2 : ℚ) :
    dCgdz Cg z1 = dCgdz Cg z2 := rfl

/-- C7: for nonnegative concentration, none of the divisions of the rate
expression divides by zero: the guarded embedding never takes its error
branch and agrees with the total rate function. -/
theorem C7_no_division_by_zero (Cg z : ℚ) (h : 0 ≤ Cg) :
    dCgdzE Cg z = some (dCgdz Cg z) := by
  have h1 : V0 ≠ 0 := by norm_num [V0]
  have h2 : Y ≠ 0 := by norm_num [Y]
  have h3 : m ≠ 0 := by norm_num [m]
  have h4 : K + Cg / m ≠ 0 := by
    rw [K, m]
    intro hc
    rw [div_one] at hc
    linarith
  simp only [dCgdzE, divE, h1, h2, h3, h4, if_false, ite_false,
    Option.bind_eq_bind, Option.some_bind, if_neg]
  rfl

/-- Witness for C7 at concentration 1, position 0. -/
theorem C7_witness : dCgdzE 1 0 = some (dCgdz 1 0) :=
  C7_no_division_by_zero 1 0 (by norm_num)

/-- C8: for every solver output, the plot built by the script puts the grid on
the horizontal axis, the elementwise ratio of the output to `Cg0` on the
vertical axis, labels the axes with the literal strings of the script, and
produces no file output. -/
theorem C8_plot_contract (ys : List ℚ) :
    (columnPlot ys).xdata = zlist ∧
      (columnPlot ys).ydata = ys.map (fun c => c / Cg0) ∧
      (columnPlot ys).xlabel = "z [m]" ∧
      (columnPlot ys).ylabel = "Cg [g/L]" ∧
      (columnPlot ys).writesFile = false :=
  ⟨rfl, rfl, rfl, rfl, rfl⟩

/-- C9: the pipeline is fail-fast: a solver error is surfaced unchanged and no
plot is produced, and a solver success yields exactly the plot — so the
solver's reported numerical error is the program's only failure mode. -/
theorem C9_fail_fast :
    (∀ e, runScript (Except.error e) = Except.error e) ∧
      ∀ ys, runScript (Except.ok ys) = Except.ok (columnPlot ys) :=
  ⟨fun _ => rfl, fun _ => rfl⟩

/-- C10: under the hard-coded parameters the rate function is exactly
−(9/10000)·Cg/(1+Cg), and for every nonnegative concentration its value lies
in (−9/10000, 0], with magnitude at most (9/10000)·Cg. -/
theorem C10_rate_closed_form_and_bounds (Cg z : ℚ) (h : 0 ≤ Cg) :
    dCgdz Cg z = -(9 / 10000) * Cg / (1 + Cg) ∧
      -(9 / 10000) < dCgdz Cg z ∧ dCgdz Cg z ≤ 0 ∧
      |dCgdz Cg z| ≤ 9 / 10000 * Cg := by
  have hd : (0 : ℚ) < 1 + Cg := by linarith
  have hform := dCgdz_closed_form Cg z
  have hnp := dCgdz_nonpos Cg z h
  refine ⟨hform, ?_, hnp, ?_⟩
  · rw [hform]
    have h1 : Cg / (1 + Cg) < 1 := (div_lt_one hd).mpr (by linarith)
    have h0 : 0 ≤ Cg / (1 + Cg) := div_nonneg h hd.le
    have hre : -(9 / 10000 : ℚ) * Cg / (1 + Cg) = -(9 / 10000 * (Cg / (1 + Cg))) := by
      ring
    rw [hre]
    nlinarith
  · rw [abs_of_nonpos hnp, hform]
    have h2 : Cg / (1 + Cg) ≤ Cg := by
      rw [div_le_iff₀ hd]
      nlinarith
    have hre : -(-(9 / 10000 : ℚ) * Cg / (1 + Cg)) = 9 / 10000 * (Cg / (1 + Cg)) := by
      ring
    rw [hre]
    nlinarith

/-- Witness for C10 at concentration 1, position 0. -/
theorem C10_witness :
    dCgdz 1 0 = -(9 / 10000) * 1 / (1 + 1) ∧
      -(9 / 10000) < dCgdz 1 0 ∧ dCgdz 1 0 ≤ 0 ∧
      |dCgdz 1 0| ≤ 9 / 10000 * 1 :=
  C10_rate_closed_form_and_bounds 1 0 (by norm_num)

end Column
